import Mathlib

/-!
Verification of the langsmith-starter-kit resource-provisioning and
experiment-runner core: the trajectory-alignment scorer, the manual
experiment lifecycle, the idempotency existence checks, and the prompt
commit push with repository auto-creation.

Each definition is a shallow embedding of the corresponding Python
function in `src/setup/`; HTTP responses are passed in explicitly as
environment records, and fallible operations return `Except`.
-/

namespace StarterKit

/-! ## Trajectory Aligner (`src/setup/experiments.py`, `evaluate_extra_steps`) -/

/-- Result dict returned by `evaluate_extra_steps`: `{"key": ..., "score": ...}`. -/
structure EvalResult where
  key : String
  score : Nat
  deriving Repr, DecidableEq

/-- The `while i < len(reference) and j < len(outputs)` loop of
`evaluate_extra_steps`, followed by the trailing
`unmatched_steps += len(outputs) - j`.  `i` indexes the reference
trajectory, `j` the observed trajectory, `unmatched` accumulates the count. -/
def alignWhile (reference observed : List String) (i j unmatched : Nat) : Nat :=
  if h : i < reference.length ∧ j < observed.length then
    if reference.get ⟨i, h.1⟩ = observed.get ⟨j, h.2⟩ then
      alignWhile reference observed (i + 1) (j + 1) unmatched
    else
      alignWhile reference observed i (j + 1) (unmatched + 1)
  else
    unmatched + (observed.length - j)
termination_by observed.length - j
decreasing_by
  all_goals omega

/-- Embedding of `evaluate_extra_steps(outputs, reference_outputs)`: scores the observed
trajectory against the reference trajectory and wraps the unmatched count in
the `{"key": "unmatched_steps", "score": ...}` dict. -/
def evaluate_extra_steps (outputs reference_outputs : List String) : EvalResult :=
  { key := "unmatched_steps"
    score := alignWhile reference_outputs outputs 0 0 0 }

/-- The greedy single pass exactly as the spec words it: a position where
the heads match advances both sequences and adds 0; any other position adds 1
and advances only the observed sequence; observed steps remaining after the
reference runs out are all charged as extra. -/
def alignSpec : List String → List String → Nat
  | _, [] => 0
  | [], o :: obs => (o :: obs).length
  | r :: ref, o :: obs =>
    if r = o then alignSpec ref obs else alignSpec (r :: ref) obs + 1

theorem alignSpec_nil_right (reference : List String) : alignSpec reference [] = 0 := by
  cases reference <;> rfl

theorem alignSpec_nil_left (observed : List String) :
    alignSpec [] observed = observed.length := by
  cases observed <;> rfl

/-- The loop starting at pointers `i`, `j` with accumulator `u` computes `u`
plus the spec-worded greedy alignment of the remaining suffixes. -/
theorem alignWhile_eq_alignSpec (reference observed : List String) :
    ∀ m i j u, observed.length - j ≤ m →
      alignWhile reference observed i j u
        = u + alignSpec (reference.drop i) (observed.drop j) := by
  intro m
  induction m with
  | zero =>
    intro i j u hm
    have hj : observed.length ≤ j := by omega
    rw [alignWhile, dif_neg (by omega), List.drop_eq_nil_of_le hj, alignSpec_nil_right]
    omega
  | succ m ih =>
    intro i j u hm
    by_cases h : i < reference.length ∧ j < observed.length
    · rw [alignWhile, dif_pos h]
      have hd1 : reference.drop i = reference.get ⟨i, h.1⟩ :: reference.drop (i + 1) := by
        rw [List.drop_eq_getElem_cons h.1]
        rfl
      have hd2 : observed.drop j = observed.get ⟨j, h.2⟩ :: observed.drop (j + 1) := by
        rw [List.drop_eq_getElem_cons h.2]
        rfl
      by_cases heq : reference.get ⟨i, h.1⟩ = observed.get ⟨j, h.2⟩
      · rw [if_pos heq, ih (i + 1) (j + 1) u (by omega), hd1, hd2]
        simp only [alignSpec]
        rw [if_pos heq]
      · rw [if_neg heq, ih i (j + 1) (u + 1) (by omega), hd1, hd2]
        simp only [alignSpec]
        rw [if_neg heq]
        omega
    · rw [alignWhile, dif_neg h]
      rcases Nat.lt_or_ge j observed.length with hj | hj
      · have hi : reference.length ≤ i := by omega
        rw [List.drop_eq_nil_of_le hi, alignSpec_nil_left, List.length_drop]
      · rw [List.drop_eq_nil_of_le hj, alignSpec_nil_right]
        omega

/-- The score computed by `evaluate_extra_steps` is exactly the spec-worded
greedy alignment applied to the full sequences. -/
theorem evaluate_extra_steps_score (outputs reference_outputs : List String) :
    (evaluate_extra_steps outputs reference_outputs).score
      = alignSpec reference_outputs outputs := by
  unfold evaluate_extra_steps
  rw [alignWhile_eq_alignSpec reference_outputs outputs outputs.length 0 0 0 (by omega)]
  simp

theorem alignSpec_append_self (observed rest : List String) :
    alignSpec (observed ++ rest) observed = 0 := by
  induction observed with
  | nil => exact alignSpec_nil_right rest
  | cons o obs ih => simp [alignSpec, ih]

/-- The matched-position count of the same greedy pass: a head match counts 1
and consumes both heads; a mismatch consumes the observed head only. -/
def matchedSpec : List String → List String → Nat
  | _, [] => 0
  | [], _ :: _ => 0
  | r :: ref, o :: obs =>
    if r = o then matchedSpec ref obs + 1 else matchedSpec (r :: ref) obs

theorem alignSpec_add_matchedSpec (reference observed : List String) :
    alignSpec reference observed + matchedSpec reference observed = observed.length := by
  induction observed generalizing reference with
  | nil => cases reference <;> simp [alignSpec, matchedSpec]
  | cons o obs ih =>
    cases reference with
    | nil => simp [alignSpec, matchedSpec]
    | cons r ref =>
      simp only [alignSpec, matchedSpec]
      by_cases h : r = o
      · rw [if_pos h, if_pos h]
        have := ih ref
        simp only [List.length_cons]
        omega
      · rw [if_neg h, if_neg h]
        have := ih (r :: ref)
        simp only [List.length_cons]
        omega

theorem matchedSpec_le (reference observed : List String) :
    matchedSpec reference observed ≤ reference.length
      ∧ matchedSpec reference observed ≤ observed.length := by
  induction observed generalizing reference with
  | nil => cases reference <;> simp [matchedSpec]
  | cons o obs ih =>
    cases reference with
    | nil => simp [matchedSpec]
    | cons r ref =>
      simp only [matchedSpec]
      by_cases h : r = o
      · rw [if_pos h]
        have := ih ref
        simp only [List.length_cons]
        omega
      · rw [if_neg h]
        have := ih (r :: ref)
        simp only [List.length_cons] at this ⊢
        omega

/-- C1: `evaluate_extra_steps` returns exactly the unmatched count computed by
the greedy single pass the spec describes (a matching position advances both
pointers and adds 0, any other position adds 1 and advances the observed
pointer only, and observed steps left after the loop are all charged), and in
particular align([a,b,c],[a,b,c]) = 0, align([x,y],[a,b,c]) = 2,
align([a,x,b,c],[a,b,c]) = 1, and align([a,a],[a]) = 1. -/
theorem C1_evaluate_extra_steps_matches_greedy_pass :
    (∀ observed reference : List String,
        (evaluate_extra_steps observed reference).score = alignSpec reference observed)
    ∧ (evaluate_extra_steps ["a", "b", "c"] ["a", "b", "c"]).score = 0
    ∧ (evaluate_extra_steps ["x", "y"] ["a", "b", "c"]).score = 2
    ∧ (evaluate_extra_steps ["a", "x", "b", "c"] ["a", "b", "c"]).score = 1
    ∧ (evaluate_extra_steps ["a", "a"] ["a"]).score = 1 := by
  refine ⟨evaluate_extra_steps_score, ?_, ?_, ?_, ?_⟩ <;>
    rw [evaluate_extra_steps_score] <;> rfl

/-- C8: the Trajectory Aligner never penalizes reference steps left unconsumed
when the observed sequence runs out first: an empty observed sequence scores 0
against every reference, and whenever the observed sequence is an initial
segment of the reference (reference = observed ++ rest) the score is 0. -/
theorem C8_no_penalty_for_leftover_reference :
    (∀ reference : List String, (evaluate_extra_steps [] reference).score = 0)
    ∧ (∀ observed rest : List String,
        (evaluate_extra_steps observed (observed ++ rest)).score = 0) := by
  constructor
  · intro reference
    rw [evaluate_extra_steps_score, alignSpec_nil_right]
  · intro observed rest
    rw [evaluate_extra_steps_score, alignSpec_append_self]

/-- C10: the score of the aligner is bounded between len(observed) - len(reference)
(truncated at 0) and len(observed); it equals len(observed) minus the number
of matched positions, and the matched-position count never exceeds
min(len(observed), len(reference)). -/
theorem C10_alignment_score_bounds :
    ∀ observed reference : List String,
      observed.length - reference.length ≤ (evaluate_extra_steps observed reference).score
      ∧ (evaluate_extra_steps observed reference).score ≤ observed.length
      ∧ (evaluate_extra_steps observed reference).score
          = observed.length - matchedSpec reference observed
      ∧ matchedSpec reference observed ≤ min observed.length reference.length := by
  intro observed reference
  rw [evaluate_extra_steps_score]
  have h1 := alignSpec_add_matchedSpec reference observed
  have h2 := matchedSpec_le reference observed
  omega

/-! ## Manual experiment lifecycle
(`src/setup/experiments.py`, `run_trajectory_experiment` with `use_api=True`) -/

/-- One API call issued by the manual experiment strategy. -/
inductive ApiEvent
  | sessionCreate
  | runCreate
  | runEnd
  | feedbackAttempt
  | sessionClose
  deriving Repr, DecidableEq

/-- Per-example environment: the observed and reference
trajectories of the example and whether each fallible API call returns a status below 300. -/
structure ExampleRun where
  obs : List String
  ref : List String
  createOk : Bool
  endOk : Bool
  feedbackOk : Bool
  deriving Repr, DecidableEq

/-- The `for ex in examples` loop of `run_trajectory_experiment`: create a
run (a failing status raises and propagates), end it with the agent
outputs (same), score via `evaluate_extra_steps`, and attempt to log the
feedback — a feedback failure is caught and logged as a warning, and the
summary is still appended.  Returns the API calls issued and either the
accumulated scores or the propagated error. -/
def processExamples : List ExampleRun → List ApiEvent × Except String (List Nat)
  | [] => ([], .ok [])
  | e :: rest =>
    if !e.createOk then ([.runCreate], .error "Failed to create run")
    else if !e.endOk then ([.runCreate, .runEnd], .error "Failed to end run")
    else
      (.runCreate :: .runEnd :: .feedbackAttempt :: (processExamples rest).1,
        (processExamples rest).2.map
          (fun scores => (evaluate_extra_steps e.obs e.ref).score :: scores))

/-- Environment for the manual strategy: the dataset lookup result, whether
the session create call succeeds, the per-example outcomes, and whether the
final session close call succeeds. -/
structure ExperimentEnv where
  datasetId : Option String
  sessionCreateOk : Bool
  examples : List ExampleRun
  sessionCloseOk : Bool
  deriving Repr, DecidableEq

/-- Embedding of `run_trajectory_experiment(use_api=True)`: resolve the dataset id
(raising if absent), create the session, process every example, then close
the session — the close call is issued before its status is checked, and a
failing close raises after the call. -/
def run_trajectory_experiment (env : ExperimentEnv) :
    List ApiEvent × Except String (List Nat) :=
  match env.datasetId with
  | none => ([], .error "Dataset not found")
  | some _ =>
    if !env.sessionCreateOk then ([.sessionCreate], .error "Failed to create session")
    else
      match (processExamples env.examples).2 with
      | .error e => (.sessionCreate :: (processExamples env.examples).1, .error e)
      | .ok scores =>
        (.sessionCreate :: ((processExamples env.examples).1 ++ [.sessionClose]),
          if env.sessionCloseOk then .ok scores
          else .error "Failed to close session")

theorem processExamples_all_ok (examples : List ExampleRun)
    (hex : ∀ e ∈ examples, e.createOk = true ∧ e.endOk = true) :
    ((processExamples examples).1.count .runCreate = examples.length
      ∧ (processExamples examples).1.count .runEnd = examples.length
      ∧ (processExamples examples).1.count .feedbackAttempt = examples.length
      ∧ (processExamples examples).1.count .sessionClose = 0)
    ∧ ∃ scores, (processExamples examples).2 = .ok scores := by
  induction examples with
  | nil => exact ⟨⟨rfl, rfl, rfl, rfl⟩, [], rfl⟩
  | cons e rest ih =>
    have he := hex e (List.mem_cons_self e rest)
    have hrest := ih (fun x hx => hex x (List.mem_cons_of_mem e hx))
    obtain ⟨⟨h1, h2, h3, h4⟩, scores, hs⟩ := hrest
    simp only [processExamples, he.1, he.2, Bool.not_true, Bool.false_eq_true,
      if_false, hs]
    refine ⟨⟨?_, ?_, ?_, ?_⟩, (evaluate_extra_steps e.obs e.ref).score :: scores, rfl⟩ <;>
      simp [List.count_cons, h1, h2, h3, h4]

/-- C2: in the manual (use_api) strategy, a run in which the dataset resolves,
the session opens, and every run-create and run-end call succeeds issues
exactly N run-create, N run-end, and N feedback-log calls for N examples; a
failing feedback call is caught and does not stop later examples (the
per-example feedback outcomes are unconstrained here); and the session-close
call is issued exactly once, after all N examples. -/
theorem C2_manual_experiment_call_counts (env : ExperimentEnv)
    (hds : env.datasetId.isSome = true)
    (hsess : env.sessionCreateOk = true)
    (hex : ∀ e ∈ env.examples, e.createOk = true ∧ e.endOk = true) :
    (run_trajectory_experiment env).1.count .runCreate = env.examples.length
    ∧ (run_trajectory_experiment env).1.count .runEnd = env.examples.length
    ∧ (run_trajectory_experiment env).1.count .feedbackAttempt = env.examples.length
    ∧ (run_trajectory_experiment env).1.count .sessionClose = 1
    ∧ (run_trajectory_experiment env).1.getLast? = some .sessionClose := by
  obtain ⟨⟨h1, h2, h3, h4⟩, scores, hs⟩ := processExamples_all_ok env.examples hex
  obtain ⟨d, hd⟩ := Option.isSome_iff_exists.mp hds
  simp only [run_trajectory_experiment, hd, hsess, Bool.not_true, Bool.false_eq_true,
    if_false, hs]
  refine ⟨?_, ?_, ?_, ?_, ?_⟩
  · simp [List.count_cons, List.count_append, h1]
  · simp [List.count_cons, List.count_append, h2]
  · simp [List.count_cons, List.count_append, h3]
  · simp [List.count_cons, List.count_append, h4]
  · rw [← List.cons_append, List.getLast?_concat]

/-- Witness for C2: a concrete two-example environment in which the feedback
call of the second example fails but both examples are fully processed and the
session is closed once. -/
theorem C2_manual_experiment_call_counts_witness :
    (run_trajectory_experiment
        { datasetId := some "ds-1"
          sessionCreateOk := true
          examples :=
            [{ obs := ["a"], ref := ["a"], createOk := true, endOk := true,
               feedbackOk := true },
             { obs := ["b"], ref := ["a"], createOk := true, endOk := true,
               feedbackOk := false }]
          sessionCloseOk := true }).1.count .runCreate = 2
    ∧ (run_trajectory_experiment
        { datasetId := some "ds-1"
          sessionCreateOk := true
          examples :=
            [{ obs := ["a"], ref := ["a"], createOk := true, endOk := true,
               feedbackOk := true },
             { obs := ["b"], ref := ["a"], createOk := true, endOk := true,
               feedbackOk := false }]
          sessionCloseOk := true }).1.count .sessionClose = 1 := by
  have h := C2_manual_experiment_call_counts
    { datasetId := some "ds-1"
      sessionCreateOk := true
      examples :=
        [{ obs := ["a"], ref := ["a"], createOk := true, endOk := true,
           feedbackOk := true },
         { obs := ["b"], ref := ["a"], createOk := true, endOk := true,
           feedbackOk := false }]
      sessionCloseOk := true }
    rfl rfl (by decide)
  exact ⟨h.1, h.2.2.2.1⟩

/-! ## Registry loops
(`src/setup/evaluators.py` `load_evaluators`;
 `src/setup/annotations.py` `load_automations_and_queues`) -/

/-- Console outcome of one iteration of the `for payload in evaluators` loop. -/
inductive EvalLoopEvent
  | created (name : String)
  | errorLogged (name : String)
  deriving Repr, DecidableEq

/-- One evaluator payload reaching the creation loop: its display name and
whether the `create_evaluator` POST succeeds.  `none` models a payload-building
step that returned the null sentinel. -/
structure EvaluatorCreation where
  display_name : String
  createOk : Bool
  deriving Repr, DecidableEq

/-- The creation loop of `load_evaluators`: each present payload is created
inside a try block; an exception is printed with the display name of the payload
and the loop continues with the next payload. -/
def load_evaluators_loop : List (Option EvaluatorCreation) → List EvalLoopEvent
  | [] => []
  | none :: rest => load_evaluators_loop rest
  | some p :: rest =>
    (if p.createOk then .created p.display_name else .errorLogged p.display_name)
      :: load_evaluators_loop rest

/-- One queue to provision in `load_automations_and_queues`: the queue name,
the result of `get_queue_id`, whether `create_queue` succeeds, whether the
matching automation already exists, and whether `create_automation` succeeds. -/
structure QueueProvision where
  name : String
  existingQueueId : Option String
  createQueueOk : Bool
  automationAlreadyExists : Bool
  createAutomationOk : Bool
  deriving Repr, DecidableEq

/-- One iteration of the `for queue in queues` loop body: create the queue if
it is absent (a failing status raises), skip the automation when the project
id did not resolve or the automation already exists, else create the
automation (a failing status raises).  No try/except surrounds these calls. -/
def provisionQueue (projectId : Option String) (q : QueueProvision) :
    Except String Unit :=
  if q.existingQueueId.isNone && !q.createQueueOk then
    .error "Failed to create annotation queue"
  else if projectId.isNone then
    .ok ()
  else if q.automationAlreadyExists then
    .ok ()
  else if q.createAutomationOk then
    .ok ()
  else
    .error "Failed to create automation"

/-- The `for queue in queues` loop of `load_automations_and_queues`: an
exception raised by any iteration propagates out of the function, so the
remaining queues are not processed.  On success, returns the names of the
queues that were fully processed, in order. -/
def load_automations_and_queues_loop (projectId : Option String) :
    List QueueProvision → Except String (List String)
  | [] => .ok []
  | q :: rest =>
    match provisionQueue projectId q with
    | .error e => .error e
    | .ok _ =>
      match load_automations_and_queues_loop projectId rest with
      | .error e => .error e
      | .ok names => .ok (q.name :: names)

/-- Counterexample for C3: in the automations loop a single failing
`create_automation` call makes the whole pass abort with an error — the
second queue is never processed and no per-item containment happens. -/
theorem C3_counterexample_automation_failure_aborts :
    load_automations_and_queues_loop (some "proj-1")
      [{ name := "Q1", existingQueueId := none, createQueueOk := true,
         automationAlreadyExists := false, createAutomationOk := false },
       { name := "Q2", existingQueueId := none, createQueueOk := true,
         automationAlreadyExists := false, createAutomationOk := true }]
      = .error "Failed to create automation" := rfl

/-- C3 (amended): per-item containment holds for `load_evaluators` — every
present payload yields exactly one console line, `created` on success or
`errorLogged` with its display name on failure, and the loop always reaches
every payload — but not for `load_automations_and_queues`, where an error in
the provisioning of one queue propagates and aborts the pass. -/
theorem C3_amended_containment_only_in_load_evaluators :
    (∀ items : List (Option EvaluatorCreation),
      load_evaluators_loop items
        = items.filterMap (fun o => o.map (fun p =>
            if p.createOk then .created p.display_name
            else .errorLogged p.display_name)))
    ∧ (∀ (projectId : Option String) (q : QueueProvision)
        (rest : List QueueProvision) (e : String),
        provisionQueue projectId q = .error e →
          load_automations_and_queues_loop projectId (q :: rest) = .error e) := by
  constructor
  · intro items
    induction items with
    | nil => rfl
    | cons o rest ih =>
      cases o with
      | none => simpa [load_evaluators_loop] using ih
      | some p => simpa [load_evaluators_loop] using ih
  · intro projectId q rest e he
    simp [load_automations_and_queues_loop, he]

/-- Witness for the amended C3: a failing `create_automation` on a concrete
queue aborts the concrete two-queue pass. -/
theorem C3_amended_witness :
    load_automations_and_queues_loop (some "proj-1")
      [{ name := "Q1", existingQueueId := none, createQueueOk := true,
         automationAlreadyExists := false, createAutomationOk := false },
       { name := "Q2", existingQueueId := none, createQueueOk := true,
         automationAlreadyExists := false, createAutomationOk := true }]
      = .error "Failed to create automation" :=
  C3_amended_containment_only_in_load_evaluators.2 (some "proj-1")
    { name := "Q1", existingQueueId := none, createQueueOk := true,
      automationAlreadyExists := false, createAutomationOk := false }
    [{ name := "Q2", existingQueueId := none, createQueueOk := true,
       automationAlreadyExists := false, createAutomationOk := true }]
    "Failed to create automation" rfl

/-! ## Idempotency Guard existence checks
(`src/setup/evaluators.py` `evaluator_exists`;
 `src/setup/annotations.py` `automation_exists`) -/

/-- One entry of the listing returned by the rules search endpoint.  A field
missing from the JSON object is `none`; `evaluators` and `code_evaluators`
are the attached bodies, with the empty list covering both a missing field
and an empty array (both falsy in the truthiness test of the source). -/
structure RuleEntry where
  display_name : Option String
  dataset_id : Option String
  session_id : Option String
  evaluators : List String
  code_evaluators : List String
  deriving Repr, DecidableEq

/-- The two scopes an evaluator rule can target. -/
inductive TargetType
  | dataset
  | project
  deriving Repr, DecidableEq

/-- The loop-body condition of the `evaluator_exists` scan: exact
display-name match, at least one attached body, and the scope field matching
the requested target id. -/
def ruleEntryMatches (name : String) (target_type : TargetType)
    (target_id : Option String) (e : RuleEntry) : Bool :=
  e.display_name == some name
    && (!e.evaluators.isEmpty || !e.code_evaluators.isEmpty)
    && (match target_type with
        | .dataset => e.dataset_id == target_id
        | .project => e.session_id == target_id)

/-- Embedding of `evaluator_exists`: GET the rules search endpoint (a status at or above
300 raises), then scan the listing for a matching entry. -/
def evaluator_exists (name : String) (target_type : TargetType)
    (target_id : Option String) (status : Nat) (listing : List RuleEntry) :
    Except String Bool :=
  if status ≥ 300 then .error "Failed to search for evaluator"
  else .ok (listing.any (ruleEntryMatches name target_type target_id))

/-- Embedding of `automation_exists`: identical GET and scan, always against the
`session_id` field of each entry. -/
def automation_exists (name : String) (project_id : Option String)
    (status : Nat) (listing : List RuleEntry) : Except String Bool :=
  if status ≥ 300 then .error "Failed to search for evaluator"
  else .ok (listing.any fun e =>
    e.display_name == some name
      && (!e.evaluators.isEmpty || !e.code_evaluators.isEmpty)
      && e.session_id == project_id)

/-- The scope condition as a proposition: the field `dataset_id` (dataset
scope) or `session_id` (project scope) equals the requested target id. -/
def scopeFieldMatches (target_type : TargetType) (target_id : Option String)
    (e : RuleEntry) : Prop :=
  match target_type with
  | .dataset => e.dataset_id = target_id
  | .project => e.session_id = target_id

theorem ruleEntryMatches_iff (name : String) (tt : TargetType)
    (tid : Option String) (e : RuleEntry) :
    ruleEntryMatches name tt tid e = true
      ↔ e.display_name = some name
        ∧ (e.evaluators ≠ [] ∨ e.code_evaluators ≠ [])
        ∧ scopeFieldMatches tt tid e := by
  cases tt <;>
    simp [ruleEntryMatches, scopeFieldMatches, and_assoc]

theorem automation_exists_eq_evaluator_exists (name : String)
    (tid : Option String) (status : Nat) (listing : List RuleEntry) :
    automation_exists name tid status listing
      = evaluator_exists name .project tid status listing := rfl

/-- C4: given a successful listing response, the existence check returns true
iff some entry matches the requested name exactly, carries at least one
attached body, and has the requested scope id; it returns false — rather than
raising — otherwise, in particular on an empty listing.  The same holds for
`automation_exists` against the `session_id` field. -/
theorem C4_existence_check_scans_for_exact_match (name : String)
    (tt : TargetType) (target_id : Option String) (status : Nat)
    (listing : List RuleEntry) (h : status < 300) :
    (evaluator_exists name tt target_id status listing = .ok true
      ↔ ∃ e ∈ listing, e.display_name = some name
          ∧ (e.evaluators ≠ [] ∨ e.code_evaluators ≠ [])
          ∧ scopeFieldMatches tt target_id e)
    ∧ (evaluator_exists name tt target_id status listing = .ok false
      ↔ ¬ ∃ e ∈ listing, e.display_name = some name
          ∧ (e.evaluators ≠ [] ∨ e.code_evaluators ≠ [])
          ∧ scopeFieldMatches tt target_id e)
    ∧ (automation_exists name target_id status listing = .ok true
      ↔ ∃ e ∈ listing, e.display_name = some name
          ∧ (e.evaluators ≠ [] ∨ e.code_evaluators ≠ [])
          ∧ e.session_id = target_id)
    ∧ (automation_exists name target_id status listing = .ok false
      ↔ ¬ ∃ e ∈ listing, e.display_name = some name
          ∧ (e.evaluators ≠ [] ∨ e.code_evaluators ≠ [])
          ∧ e.session_id = target_id)
    ∧ evaluator_exists name tt target_id status [] = .ok false
    ∧ automation_exists name target_id status [] = .ok false := by
  have hn : ¬ status ≥ 300 := by omega
  have he : ∀ (l : List RuleEntry),
      evaluator_exists name tt target_id status l
        = .ok (l.any (ruleEntryMatches name tt target_id)) := by
    intro l
    unfold evaluator_exists
    rw [if_neg hn]
  have ha : ∀ (l : List RuleEntry),
      automation_exists name target_id status l
        = .ok (l.any (ruleEntryMatches name .project target_id)) := by
    intro l
    rw [automation_exists_eq_evaluator_exists]
    unfold evaluator_exists
    rw [if_neg hn]
  have hproj : ∀ e : RuleEntry,
      scopeFieldMatches TargetType.project target_id e ↔ e.session_id = target_id := by
    intro e
    exact Iff.rfl
  refine ⟨?_, ?_, ?_, ?_, ?_, ?_⟩
  · rw [he listing]
    simp only [Except.ok.injEq, List.any_eq_true, ruleEntryMatches_iff]
  · rw [he listing]
    simp only [Except.ok.injEq, Bool.eq_false_iff, ne_eq, List.any_eq_true,
      ruleEntryMatches_iff]
  · rw [ha listing]
    simp only [Except.ok.injEq, List.any_eq_true, ruleEntryMatches_iff, hproj]
  · rw [ha listing]
    simp only [Except.ok.injEq, Bool.eq_false_iff, ne_eq, List.any_eq_true,
      ruleEntryMatches_iff, hproj]
  · rw [he []]
    rfl
  · rw [ha []]
    rfl

/-- Witness for C4: a concrete listing containing an exact dataset-scoped
match with one judge body makes the check return true at a 200 status. -/
theorem C4_existence_check_scans_for_exact_match_witness :
    (200 : Nat) < 300
    ∧ evaluator_exists "correctness" .dataset (some "d1") 200
        [{ display_name := some "correctness", dataset_id := some "d1",
           session_id := none, evaluators := ["judge"], code_evaluators := [] }]
        = .ok true :=
  ⟨by omega,
    (C4_existence_check_scans_for_exact_match "correctness" .dataset
        (some "d1") 200
        [{ display_name := some "correctness", dataset_id := some "d1",
           session_id := none, evaluators := ["judge"], code_evaluators := [] }]
        (by omega)).1.mpr
      ⟨{ display_name := some "correctness", dataset_id := some "d1",
         session_id := none, evaluators := ["judge"], code_evaluators := [] },
        List.mem_singleton.mpr rfl, rfl, Or.inl (by simp), rfl⟩⟩

/-! ## Prompt commit push (`src/setup/prompts.py`,
`api_push_prompt_commit` and `load_prompt`) -/

/-- Request body POSTed to the commits endpoint: the serialized manifest and
the optional `parent_commit` hash (absent when no latest commit hash was
retrieved). -/
structure CommitBody where
  manifest : String
  parent_commit : Option String
  deriving Repr, DecidableEq

/-- HTTP responses the push sequence can encounter: the latest-commit fetch
(which may raise, caught and ignored), the first push POST, the repository
creation POST, and the retried push POST. -/
structure PushEnv where
  latestFetchRaises : Bool
  latestStatus : Nat
  latestHash : Option String
  pushStatus : Nat
  createStatus : Nat
  retryStatus : Nat
  deriving Repr, DecidableEq

/-- One HTTP call issued by `api_push_prompt_commit`. -/
inductive PushCall
  | fetchLatest
  | pushCommit (body : CommitBody)
  | createRepo
  deriving Repr, DecidableEq

/-- The body assembled before the first POST: `parent_commit` is attached
exactly when the latest-commit GET did not raise, returned 200, and its JSON
carried a `commit_hash`. -/
def commitBody (manifest : String) (env : PushEnv) : CommitBody :=
  { manifest := manifest
    parent_commit :=
      if !env.latestFetchRaises && env.latestStatus == 200 then env.latestHash
      else none }

/-- Embedding of `api_push_prompt_commit`: fetch the latest commit hash, push the commit,
and on the 409 / 404 / other-failure conventions return the no-op sentinel,
auto-create the repository and retry exactly once, or raise.  Returns the
calls issued in order and the result of the operation (the hub ref URL for a new
commit, `none` for an unchanged-content no-op). -/
def api_push_prompt_commit (name owner manifest : String) (env : PushEnv) :
    List PushCall × Except String (Option String) :=
  let body := commitBody manifest env
  let ref := "https://api.smith.langchain.com/repos/" ++ owner ++ "/" ++ name
  if env.pushStatus == 409 then
    ([.fetchLatest, .pushCommit body], .ok none)
  else if env.pushStatus == 404 then
    if env.createStatus != 200 && env.createStatus != 201 && env.createStatus != 409 then
      ([.fetchLatest, .pushCommit body, .createRepo],
        .error "Failed to create prompt repo")
    else if env.retryStatus == 409 then
      ([.fetchLatest, .pushCommit body, .createRepo, .pushCommit body], .ok none)
    else if env.retryStatus ≥ 300 then
      ([.fetchLatest, .pushCommit body, .createRepo, .pushCommit body],
        .error "Failed to push prompt")
    else
      ([.fetchLatest, .pushCommit body, .createRepo, .pushCommit body],
        .ok (some ref))
  else if env.pushStatus ≥ 300 then
    ([.fetchLatest, .pushCommit body], .error "Failed to push prompt")
  else
    ([.fetchLatest, .pushCommit body], .ok (some ref))

/-- Result of `client.push_prompt` in the SDK transport: a new reference, the
typed conflict signal, or any other exception. -/
inductive SdkPushResult
  | newRef (ref : String)
  | conflictSignal
  | otherErr (msg : String)
  deriving Repr, DecidableEq

/-- Embedding of `load_prompt`: the direct-API transport delegates to
`api_push_prompt_commit`; the SDK transport catches only the typed conflict
signal, turning it into the `None` sentinel, and lets other errors propagate. -/
def load_prompt (use_api : Bool) (name owner manifest : String) (env : PushEnv)
    (sdk : SdkPushResult) : Except String (Option String) :=
  if use_api then (api_push_prompt_commit name owner manifest env).2
  else
    match sdk with
    | .newRef r => .ok (some r)
    | .conflictSignal => .ok none
    | .otherErr m => .error m

/-- Is this call a push POST? -/
def isPushCall : PushCall → Bool
  | .pushCommit _ => true
  | _ => false

/-- Is this call the repository-creation POST? -/
def isCreateRepoCall : PushCall → Bool
  | .createRepo => true
  | _ => false

/-- C5: on a 404 push response, exactly one repository-creation call is
issued; the retried push is issued exactly once when the creation call comes
back 200/201/409, the total number of push calls never exceeds two (never
more than one retry), and if the retried push fails with a non-conflict
status at or above 300 the operation raises. -/
theorem C5_repo_autocreate_retries_once (name owner manifest : String)
    (env : PushEnv) (h : env.pushStatus = 404) :
    (api_push_prompt_commit name owner manifest env).1.countP isCreateRepoCall = 1
    ∧ ((env.createStatus = 200 ∨ env.createStatus = 201 ∨ env.createStatus = 409) →
        (api_push_prompt_commit name owner manifest env).1.countP isPushCall = 2)
    ∧ (api_push_prompt_commit name owner manifest env).1.countP isPushCall ≤ 2
    ∧ (env.retryStatus ≥ 300 → env.retryStatus ≠ 409 →
        ∃ msg, (api_push_prompt_commit name owner manifest env).2 = .error msg) := by
  simp only [api_push_prompt_commit, h]
  norm_num
  split_ifs with hc hr hr2
  · refine ⟨by simp [List.countP_cons, isCreateRepoCall, isPushCall], ?_,
      by simp [List.countP_cons, isPushCall], fun _ _ => ⟨_, rfl⟩⟩
    intro hcs
    simp only [Bool.and_eq_true, bne_iff_ne, ne_eq] at hc
    rcases hcs with h200 | h201 | h409
    · exact absurd h200 hc.1.1
    · exact absurd h201 hc.1.2
    · exact absurd h409 hc.2
  · refine ⟨by simp [List.countP_cons, isCreateRepoCall, isPushCall],
      fun _ => by simp [List.countP_cons, isCreateRepoCall, isPushCall],
      by simp [List.countP_cons, isPushCall], ?_⟩
    intro _ hne
    exact absurd hr hne
  · exact ⟨by simp [List.countP_cons, isCreateRepoCall, isPushCall],
      fun _ => by simp [List.countP_cons, isCreateRepoCall, isPushCall],
      by simp [List.countP_cons, isPushCall],
      fun _ _ => ⟨_, rfl⟩⟩
  · refine ⟨by simp [List.countP_cons, isCreateRepoCall, isPushCall],
      fun _ => by simp [List.countP_cons, isCreateRepoCall, isPushCall],
      by simp [List.countP_cons, isPushCall], ?_⟩
    intro hge _
    exact absurd hge hr2

/-- Witness for C5: pushing into a nonexistent repository (404) with a
successful creation and retry issues one creation call and two push calls. -/
theorem C5_repo_autocreate_retries_once_witness :
    ({ latestFetchRaises := false, latestStatus := 200, latestHash := some "h0",
       pushStatus := 404, createStatus := 201, retryStatus := 200 } : PushEnv).pushStatus
      = 404
    ∧ (api_push_prompt_commit "email-agent-action" "-" "m"
        { latestFetchRaises := false, latestStatus := 200, latestHash := some "h0",
          pushStatus := 404, createStatus := 201, retryStatus := 200 }).1.countP
        isCreateRepoCall = 1
    ∧ (api_push_prompt_commit "email-agent-action" "-" "m"
        { latestFetchRaises := false, latestStatus := 200, latestHash := some "h0",
          pushStatus := 404, createStatus := 201, retryStatus := 200 }).1.countP
        isPushCall = 2 := by
  have h := C5_repo_autocreate_retries_once "email-agent-action" "-" "m"
    { latestFetchRaises := false, latestStatus := 200, latestHash := some "h0",
      pushStatus := 404, createStatus := 201, retryStatus := 200 } rfl
  exact ⟨rfl, h.1, h.2.1 (Or.inr (Or.inl rfl))⟩

/-- C6: a conflict response is a success-no-op in both transports — the push
returns the `None` sentinel with no error, distinct from the reference
returned for a newly created commit; so pushing identical content twice
(first response 200, second 409) yields a reference then `None`. -/
theorem C6_conflict_returns_null_sentinel (name owner manifest : String)
    (env1 env2 : PushEnv) (h1 : env1.pushStatus = 200)
    (h2 : env2.pushStatus = 409) :
    (∃ ref, (api_push_prompt_commit name owner manifest env1).2 = .ok (some ref))
    ∧ (api_push_prompt_commit name owner manifest env2).2 = .ok none
    ∧ (api_push_prompt_commit name owner manifest env1).2
        ≠ (api_push_prompt_commit name owner manifest env2).2
    ∧ (∀ r, load_prompt false name owner manifest env1 (.newRef r) = .ok (some r))
    ∧ load_prompt false name owner manifest env2 .conflictSignal = .ok none := by
  simp only [api_push_prompt_commit, h1, h2, load_prompt]
  norm_num
  simp

/-- Witness for C6: concrete environments for the two identical pushes. -/
theorem C6_conflict_returns_null_sentinel_witness :
    (api_push_prompt_commit "email-agent-triage" "-" "m"
        { latestFetchRaises := false, latestStatus := 404, latestHash := none,
          pushStatus := 409, createStatus := 0, retryStatus := 0 }).2 = .ok none := by
  have h := C6_conflict_returns_null_sentinel "email-agent-triage" "-" "m"
    { latestFetchRaises := false, latestStatus := 404, latestHash := none,
      pushStatus := 200, createStatus := 0, retryStatus := 0 }
    { latestFetchRaises := false, latestStatus := 404, latestHash := none,
      pushStatus := 409, createStatus := 0, retryStatus := 0 } rfl rfl
  exact h.2.1

/-- C9: the push body carries `parent_commit` equal to the fetched latest
commit hash exactly when the latest-commit GET did not raise, returned 200,
and yielded a hash; otherwise the body has no `parent_commit`; and every
push call issued by `api_push_prompt_commit` (initial and retried) carries
exactly this body. -/
theorem C9_parent_commit_linking (manifest : String) (env : PushEnv) :
    (∀ h, env.latestFetchRaises = false → env.latestStatus = 200 →
        env.latestHash = some h →
        (commitBody manifest env).parent_commit = some h)
    ∧ (env.latestFetchRaises = true ∨ env.latestStatus ≠ 200 ∨ env.latestHash = none →
        (commitBody manifest env).parent_commit = none)
    ∧ (∀ name owner b, PushCall.pushCommit b
          ∈ (api_push_prompt_commit name owner manifest env).1 →
        b = commitBody manifest env) := by
  refine ⟨?_, ?_, ?_⟩
  · intro h hr hs hh
    simp [commitBody, hr, hs, hh]
  · intro hcase
    rcases hcase with hr | hs | hh
    · simp [commitBody, hr]
    · simp [commitBody, hs]
    · by_cases hr : env.latestFetchRaises <;> simp [commitBody, hr, hh]
  · intro name owner b hb
    simp only [api_push_prompt_commit] at hb
    split_ifs at hb <;> simp only [List.mem_cons, List.mem_singleton,
      List.not_mem_nil, or_false, PushCall.pushCommit.injEq, reduceCtorEq,
      false_or, or_self] at hb <;> exact hb

/-- Witness for C9: with a 200 latest-commit response carrying hash "abc",
the assembled body carries `parent_commit` "abc". -/
theorem C9_parent_commit_linking_witness :
    (commitBody "m"
        { latestFetchRaises := false, latestStatus := 200,
          latestHash := some "abc", pushStatus := 200, createStatus := 0,
          retryStatus := 0 }).parent_commit = some "abc" :=
  (C9_parent_commit_linking "m"
      { latestFetchRaises := false, latestStatus := 200,
        latestHash := some "abc", pushStatus := 200, createStatus := 0,
        retryStatus := 0 }).1 "abc" rfl rfl rfl

/-! ## Reference resolution checks
(`src/setup/annotations.py` `get_queue_id`;
 `src/setup/prompts.py` `prompt_exists`) -/

/-- One entry of the queue listing returned by the annotation-queues GET. -/
structure QueueEntry where
  name : Option String
  id : Option String
  deriving Repr, DecidableEq

/-- Embedding of `get_queue_id`: GET the queue listing (a status at or above 300 raises),
return the id of the first entry whose name matches exactly, else `None`. -/
def get_queue_id (name : String) (status : Nat) (listing : List QueueEntry) :
    Except String (Option String) :=
  if status ≥ 300 then .error "Failed to search for queue"
  else
    .ok (match listing.find? (fun q => q.name == some name) with
      | some q => q.id
      | none => none)

/-- Responses seen by `prompt_exists`: the commit GET (latest or specific
version) and the fallback repo commits listing, whose JSON body truthiness
is `listNonEmpty`. -/
structure PromptExistsEnv where
  commitStatus : Nat
  listStatus : Nat
  listNonEmpty : Bool
  deriving Repr, DecidableEq

/-- Embedding of `prompt_or_ref.split(":", 1)` after the `":" in prompt_or_ref` test: the
characters before the first colon, and everything after it when present. -/
def splitRefAux : List Char → List Char × Option (List Char)
  | [] => ([], none)
  | c :: rest =>
    if c = ':' then ([], some rest)
    else ((c :: (splitRefAux rest).1), (splitRefAux rest).2)

/-- Parse a prompt ref `repo`, `repo:latest`, or `repo:<hash_or_tag>` into
the repo handle and the optional version. -/
def parsePromptRef (s : String) : String × Option String :=
  ((⟨(splitRefAux s.data).1⟩ : String),
    (splitRefAux s.data).2.map (fun cs => (⟨cs⟩ : String)))

/-- Status handling shared by both version branches of `prompt_exists`: 200
means the commit exists, 404 means it does not, and any other status falls
back to the repo commits listing, reported as existing iff that GET returns
200 with a truthy body.  Exceptions anywhere are caught and become `false`;
the function never raises. -/
def promptCheck (env : PromptExistsEnv) : Bool :=
  if env.commitStatus == 200 then true
  else if env.commitStatus == 404 then false
  else env.listStatus == 200 && env.listNonEmpty

/-- Embedding of `prompt_exists`: resolve the version part of the ref (`None`/`latest` hit the
latest-commit endpoint, a specific version hits the endpoint of that commit),
then apply the shared status handling. -/
def prompt_exists (prompt_or_ref : String) (env : PromptExistsEnv) : Bool :=
  match (parsePromptRef prompt_or_ref).2 with
  | none => promptCheck env
  | some v => if v == "latest" then promptCheck env else promptCheck env

/-- Counterexample for C7: on a transport failure (status 500 on the commit
GET and on the fallback listing), `prompt_exists` returns `false` instead of
raising — the very same outcome as a genuine 404 absence, so the two are not
distinguishable. -/
theorem C7_counterexample_prompt_exists_swallows_failure :
    prompt_exists "email-agent-next-action-eval:latest"
        { commitStatus := 500, listStatus := 500, listNonEmpty := false } = false
    ∧ prompt_exists "email-agent-next-action-eval:latest"
        { commitStatus := 500, listStatus := 500, listNonEmpty := false }
      = prompt_exists "email-agent-next-action-eval:latest"
        { commitStatus := 404, listStatus := 200, listNonEmpty := false } :=
  ⟨rfl, rfl⟩

/-- C7 (amended): `evaluator_exists` and `get_queue_id` raise on any status
at or above 300, so for them a transport failure is distinguishable from
absence; `prompt_exists` however never raises — for any status other than
200/404 it falls back to the commits listing and returns a plain boolean,
`false` when the fallback also fails. -/
theorem C7_amended_transport_failure_handling (status : Nat)
    (h : status ≥ 300) :
    (∀ name tt tid listing,
      evaluator_exists name tt tid status listing
        = .error "Failed to search for evaluator")
    ∧ (∀ name listing,
      get_queue_id name status listing = .error "Failed to search for queue")
    ∧ (∀ ref env, env.commitStatus ≠ 200 → env.commitStatus ≠ 404 →
        prompt_exists ref env = (env.listStatus == 200 && env.listNonEmpty)) := by
  refine ⟨?_, ?_, ?_⟩
  · intro name tt tid listing
    unfold evaluator_exists
    rw [if_pos h]
  · intro name listing
    unfold get_queue_id
    rw [if_pos h]
  · intro ref env h200 h404
    unfold prompt_exists
    have hc : promptCheck env = (env.listStatus == 200 && env.listNonEmpty) := by
      unfold promptCheck
      rw [if_neg (by simp [h200]), if_neg (by simp [h404])]
    rcases hp : (parsePromptRef ref).2 with _ | v <;> simp [hp, hc]

/-- Witness for the amended C7: concrete status-500 checks. -/
theorem C7_amended_transport_failure_handling_witness :
    (500 : Nat) ≥ 300
    ∧ get_queue_id "Professionalism Annotation Queue" 500 []
        = .error "Failed to search for queue"
    ∧ prompt_exists "email-agent-triage"
        { commitStatus := 500, listStatus := 500, listNonEmpty := true }
      = (((500 : Nat) == 200) && true) := by
  have h := C7_amended_transport_failure_handling 500 (by omega)
  exact ⟨by omega, h.2.1 "Professionalism Annotation Queue" [],
    h.2.2 "email-agent-triage"
      { commitStatus := 500, listStatus := 500, listNonEmpty := true }
      (by decide) (by decide)⟩

end StarterKit
